import Mathlib

/-!
Verification development for the DragonSlayerBot event/combat/mission core.

The definitions below are a shallow embedding of the JavaScript source:
CombatManager (threat assessment, engagement state machine, combat
statistics), MissionManager (mission phase state machine), and
EventManager (event dispatch and error containment).  JavaScript numbers
are modelled as rationals, timestamps as naturals, maps as association
lists, fallible external calls as Except-valued functions, and the
EventEmitter side channel as an explicit list of emitted events carried
in the state.  Ghost instrumentation fields (phaseTrace, providerCalls,
events) record observable actions needed to state temporal properties;
they never influence control flow.
-/

namespace Threat

/-- The five discretized threat levels used by the combat manager. -/
inductive ThreatLevel where
  | NONE
  | LOW
  | MEDIUM
  | HIGH
  | CRITICAL
deriving DecidableEq, Repr

/-- JavaScript Math.round: round half toward positive infinity. -/
def jsRound (q : ℚ) : ℤ := ⌊q + 1/2⌋

/-- The combat configuration constants fixed in the CombatManager constructor. -/
def attackCooldown : ℕ := 600

def criticalHealthThreshold : ℚ := 6

def fleeHealthThreshold : ℚ := 4

def maxCombatRange : ℚ := 20

def optimalCombatRange : ℚ := 3

def retreatDistance : ℚ := 15

/-- The ordered priority-target list from the combat configuration. -/
def priorityTargets : List String :=
  ["minecraft:ender_dragon", "minecraft:wither", "minecraft:elder_guardian",
   "minecraft:blaze", "minecraft:enderman", "minecraft:creeper",
   "minecraft:zombie", "minecraft:skeleton", "minecraft:spider"]

/-- The fixed hostile-type membership test (isHostileEntity). -/
def isHostileEntity (t : String) : Bool :=
  ["minecraft:zombie", "minecraft:skeleton", "minecraft:creeper", "minecraft:spider",
   "minecraft:enderman", "minecraft:blaze", "minecraft:ghast", "minecraft:witch",
   "minecraft:ender_dragon", "minecraft:wither", "minecraft:elder_guardian",
   "minecraft:guardian", "minecraft:shulker", "minecraft:phantom"].contains t

/-- Base threat table of calculateEntityThreat; unknown types default to 20. -/
def baseThreat (t : String) : ℚ :=
  if t = "minecraft:ender_dragon" then 100
  else if t = "minecraft:wither" then 90
  else if t = "minecraft:elder_guardian" then 80
  else if t = "minecraft:blaze" then 70
  else if t = "minecraft:creeper" then 60
  else if t = "minecraft:enderman" then 50
  else if t = "minecraft:skeleton" then 40
  else if t = "minecraft:zombie" then 30
  else if t = "minecraft:spider" then 25
  else if t = "minecraft:phantom" then 45
  else 20

/-- Input view of an entity for threat scoring: its type string and, when the
caller attached one, a distance from the bot.  The source guards the distance
factor with a JavaScript truthiness test, so an absent field and a zero
distance both skip the factor. -/
structure EntityView where
  type : String
  distance : Option ℚ
deriving DecidableEq, Repr

/-- calculateEntityThreat: base threat by type, times a distance factor with a
0.1 floor when a nonzero distance is present, times a health factor that grows
as the bot loses health, rounded with Math.round. -/
def calculateEntityThreat (botHealth botMaxHealth : ℚ) (e : EntityView) : ℤ :=
  let threat0 := baseThreat e.type
  let threat1 :=
    match e.distance with
    | some d => if d = 0 then threat0 else threat0 * max (1/10) (1 - d / maxCombatRange)
    | none => threat0
  let healthFactor := 1 + (1 - botHealth / botMaxHealth)
  jsRound (threat1 * healthFactor)

/-- determineThreatLevel: the threshold ladder checked top-down. -/
def determineThreatLevel (maxThreat : ℚ) : ThreatLevel :=
  if maxThreat ≥ 80 then ThreatLevel.CRITICAL
  else if maxThreat ≥ 60 then ThreatLevel.HIGH
  else if maxThreat ≥ 40 then ThreatLevel.MEDIUM
  else if maxThreat ≥ 20 then ThreatLevel.LOW
  else ThreatLevel.NONE

end Threat

namespace Combat

open Threat

/-- A tracked world entity as the combat manager sees it: its type string and
its Euclidean distance from the bot.  The source derives the distance from
coordinates with calculateDistance (a square root); since the claims settled
here do not depend on coordinate geometry, the snapshot carries the distance
directly. -/
structure WEntity where
  type : String
  distFromBot : ℚ
deriving DecidableEq, Repr

/-- The world inputs a combat tick reads: the entities map (association list
keyed by runtime id), the bot vitals, the current clock, and the damage the
next attack would deal (estimateAttackDamage is randomized in the source, so
it enters the model as an input). -/
structure World where
  entities : List (ℕ × WEntity)
  health : ℚ
  maxHealth : ℚ
  now : ℕ
  attackDamage : ℕ
deriving DecidableEq, Repr

/-- An entry of the nearby-hostile snapshot built by getNearbyHostileEntities:
the entity id, type, distance, and the threat used for sorting.  The source
computes that threat from the raw map entry, which carries no distance field,
so the distance factor is skipped there. -/
structure Snap where
  id : ℕ
  type : String
  distance : ℚ
  threat : ℤ
deriving DecidableEq, Repr

/-- A combat strategy record: approach, tactic list, risk, expected outcome
and backup plan, as produced by the AI parser or the default table. -/
structure Strategy where
  approach : String
  tactics : List String
  risk : String
  expectedOutcome : String
  backup : String
deriving DecidableEq, Repr

/-- getDefaultStrategy: the static per-entity-type fallback strategy table. -/
def getDefaultStrategy (targetType : String) : Strategy :=
  if targetType = "minecraft:ender_dragon" then
    { approach := "AGGRESSIVE", tactics := ["maintain_distance", "target_crystals", "dodge_breath"],
      risk := "HIGH", expectedOutcome := "UNCERTAIN", backup := "RETREAT" }
  else if targetType = "minecraft:creeper" then
    { approach := "DEFENSIVE", tactics := ["maintain_distance", "hit_and_run", "prevent_explosion"],
      risk := "HIGH", expectedOutcome := "WIN", backup := "RETREAT" }
  else if targetType = "minecraft:enderman" then
    { approach := "BALANCED", tactics := ["avoid_eye_contact", "use_projectiles", "height_advantage"],
      risk := "MEDIUM", expectedOutcome := "WIN", backup := "RETREAT" }
  else
    { approach := "BALANCED", tactics := ["optimal_range", "timing_attacks", "health_monitor"],
      risk := "MEDIUM", expectedOutcome := "WIN", backup := "RETREAT" }

/-- The aggregate combat statistics record (combatStats). -/
structure CombatStats where
  totalFights : ℕ
  wins : ℕ
  losses : ℕ
  escapes : ℕ
  damageDealt : ℕ
  damageTaken : ℕ
  totalCombatTime : ℕ
  averageFightDuration : ℚ
  killStreak : ℕ
  bestKillStreak : ℕ
deriving DecidableEq, Repr

/-- The all-zero statistics set up in the constructor. -/
def initialCombatStats : CombatStats :=
  { totalFights := 0, wins := 0, losses := 0, escapes := 0, damageDealt := 0,
    damageTaken := 0, totalCombatTime := 0, averageFightDuration := 0,
    killStreak := 0, bestKillStreak := 0 }

/-- One entry of the combatHistory log: pushed by recordCombatStart, completed
by endCombat. -/
structure CombatRecord where
  startTime : ℕ
  target : String
  botHealthStart : ℚ
  strategy : String
  endTime : Option ℕ
  duration : Option ℕ
  outcome : Option String
  botHealthEnd : Option ℚ
deriving DecidableEq, Repr

/-- The mutable state of the CombatManager.  The events field is ghost
instrumentation: it records, in order, the emitted events, chat messages and
collaborator requests (navigation, inventory) that the source performs as
side effects, so that temporal claims can talk about them. -/
structure CombatState where
  inCombat : Bool
  currentTarget : Option Snap
  currentStrategy : Option Strategy
  combatHistory : List CombatRecord
  lastAttackTime : ℕ
  combatStartTime : ℕ
  threatLevel : ThreatLevel
  retreatCooldownEnd : Option ℕ
  combatStats : CombatStats
  events : List (String × String)
deriving DecidableEq, Repr

/-- The combat state set up in the constructor (retreatCooldownEnd starts
undefined). -/
def initialCombatState : CombatState :=
  { inCombat := false, currentTarget := none, currentStrategy := none,
    combatHistory := [], lastAttackTime := 0, combatStartTime := 0,
    threatLevel := ThreatLevel.NONE, retreatCooldownEnd := none,
    combatStats := initialCombatStats, events := [] }

/-- Append an emitted event to the ghost trace. -/
def emitEv (s : CombatState) (name payload : String) : CombatState :=
  { s with events := s.events ++ [(name, payload)] }

/-- Descending insertion by threat, embedding the sort comparator
(a, b) => b.threat - a.threat of getNearbyHostileEntities. -/
def insertByThreat (x : Snap) : List Snap → List Snap
  | [] => [x]
  | y :: ys => if x.threat ≥ y.threat then x :: y :: ys else y :: insertByThreat x ys

/-- Sort a snapshot list by descending threat. -/
def sortByThreatDesc : List Snap → List Snap
  | [] => []
  | x :: xs => insertByThreat x (sortByThreatDesc xs)

/-- getNearbyHostileEntities: filter the entities map to hostile types within
maxCombatRange, attach id, distance and a threat score computed from the raw
entry (which has no distance field), and sort by descending threat. -/
def getNearbyHostileEntities (w : World) : List Snap :=
  let within := w.entities.filter
    (fun p => isHostileEntity p.2.type && decide (p.2.distFromBot ≤ maxCombatRange))
  let snaps := within.map (fun p =>
    { id := p.1, type := p.2.type, distance := p.2.distFromBot,
      threat := calculateEntityThreat w.health w.maxHealth { type := p.2.type, distance := none } })
  sortByThreatDesc snaps

/-- selectOptimalTarget: first nearby entity whose type appears in the
priority list (checked in priority order), otherwise the highest-threat
entity; none when no hostile entity is in range. -/
def selectOptimalTarget (w : World) : Option Snap :=
  let nearby := getNearbyHostileEntities w
  if nearby.isEmpty then none
  else
    match priorityTargets.findSome? (fun pt => nearby.find? (fun e => e.type = pt)) with
    | some t => some t
    | none => nearby.head?

/-- Look up an entity in the entities map by runtime id. -/
def lookupEntity (entities : List (ℕ × WEntity)) (id : ℕ) : Option WEntity :=
  (entities.find? (fun p => p.1 = id)).map (fun p => p.2)

/-- isTargetValid: the target id must still be in the entities map and its
distance must be within maxCombatRange. -/
def isTargetValid (w : World) (t : Snap) : Bool :=
  match lookupEntity w.entities t.id with
  | none => false
  | some e => decide (e.distFromBot ≤ maxCombatRange)

/-- Complete the last combatHistory entry with end time, duration, outcome
and final bot health, as endCombat does when the history is nonempty. -/
def setLastCombatOutcome (now : ℕ) (duration : ℕ) (outcome : String) (health : ℚ) :
    List CombatRecord → List CombatRecord
  | [] => []
  | [r] => [{ r with
      endTime := some now
      duration := some duration
      outcome := some outcome
      botHealthEnd := some health }]
  | r :: rs => r :: setLastCombatOutcome now duration outcome health rs

/-- endCombat: no-op unless in combat; otherwise clear the session, update the
aggregate statistics (wins on TARGET_DEFEATED, escapes on RETREAT, losses on
every other outcome), complete the last history entry, and emit combat_end.
The fire-and-forget notification to the learning collaborator is external
and not modelled. -/
def endCombat (outcome : String) (w : World) (s : CombatState) : CombatState :=
  if s.inCombat = false then s
  else
    let duration := w.now - s.combatStartTime
    let st0 := s.combatStats
    let st1 := { st0 with totalFights := st0.totalFights + 1,
                          totalCombatTime := st0.totalCombatTime + duration }
    let st2 := { st1 with averageFightDuration := (st1.totalCombatTime : ℚ) / (st1.totalFights : ℚ) }
    let st3 :=
      if outcome = "TARGET_DEFEATED" then
        let ks := st2.killStreak + 1
        { st2 with wins := st2.wins + 1, killStreak := ks,
                   bestKillStreak := max st2.bestKillStreak ks }
      else if outcome = "RETREAT" then
        { st2 with escapes := st2.escapes + 1, killStreak := 0 }
      else
        { st2 with losses := st2.losses + 1, killStreak := 0 }
    { s with inCombat := false,
             combatStats := st3,
             combatHistory := setLastCombatOutcome w.now duration outcome w.health s.combatHistory,
             currentTarget := none,
             currentStrategy := none,
             events := s.events ++ [("combat_end", outcome)] }

/-- executeRetreat: request a move to a safe position from the navigation
collaborator, end the combat session with outcome RETREAT, then announce the
retreat in chat. -/
def executeRetreat (reason : String) (w : World) (s : CombatState) : CombatState :=
  let s1 := emitEv s "retreat_move" reason
  let s2 := endCombat "RETREAT" w s1
  emitEv s2 "chat_retreat" reason

/-- canAttack: the attack cooldown has elapsed since the last attack. -/
def canAttack (w : World) (s : CombatState) : Bool :=
  decide (w.now - s.lastAttackTime ≥ attackCooldown)

/-- isOptimalAttackTiming: one and a half attack cooldowns have elapsed. -/
def isOptimalAttackTiming (w : World) (s : CombatState) : Bool :=
  decide (w.now - s.lastAttackTime ≥ attackCooldown * 3 / 2)

/-- attackTarget: guarded by the cooldown; records the attack time, adds the
estimated damage to damageDealt and emits attack_executed. -/
def attackTarget (w : World) (s : CombatState) (t : Snap) : CombatState :=
  if canAttack w s = false then s
  else
    { s with lastAttackTime := w.now,
             combatStats := { s.combatStats with
               damageDealt := s.combatStats.damageDealt + w.attackDamage },
             events := s.events ++ [("attack_executed", t.type)] }

/-- moveTowardsTarget: a navigation request, modelled as an emitted action. -/
def moveTowardsTarget (s : CombatState) (t : Snap) : CombatState :=
  emitEv s "move_towards" t.type

/-- moveAwayFromTarget: a navigation request, modelled as an emitted action. -/
def moveAwayFromTarget (s : CombatState) (t : Snap) : CombatState :=
  emitEv s "move_away" t.type

/-- executeAggressiveStrategy: close the distance, attack whenever ready. -/
def executeAggressiveStrategy (w : World) (s : CombatState) (t : Snap) : CombatState :=
  let s1 := if t.distance > optimalCombatRange then moveTowardsTarget s t else s
  if canAttack w s1 then attackTarget w s1 t else s1

/-- executeDefensiveStrategy: keep one and a half optimal ranges, time
attacks carefully. -/
def executeDefensiveStrategy (w : World) (s : CombatState) (t : Snap) : CombatState :=
  let safeDistance := optimalCombatRange * 3 / 2
  let s1 :=
    if t.distance < safeDistance then moveAwayFromTarget s t
    else if t.distance > maxCombatRange * 4 / 5 then moveTowardsTarget s t
    else s
  if canAttack w s1 && isOptimalAttackTiming w s1 then attackTarget w s1 t else s1

/-- executeBalancedStrategy: hold near the optimal range, attack when ready. -/
def executeBalancedStrategy (w : World) (s : CombatState) (t : Snap) : CombatState :=
  let s1 :=
    if t.distance < optimalCombatRange * 4 / 5 then moveAwayFromTarget s t
    else if t.distance > optimalCombatRange * 6 / 5 then moveTowardsTarget s t
    else s
  if canAttack w s1 then attackTarget w s1 t else s1

/-- useConsumables: heal below seventy percent health, then use buff items;
both are requests to the inventory collaborator, modelled as emitted
actions. -/
def useConsumables (w : World) (s : CombatState) : CombatState :=
  let s1 := if w.health < w.maxHealth * 7 / 10 then emitEv s "use_healing_item" "" else s
  emitEv s1 "use_buff_items" ""

/-- executeTactic: dispatch on the named tactic; unknown names do nothing. -/
def executeTactic (w : World) (s : CombatState) (tac : String) (t : Snap) : CombatState :=
  if tac = "maintain_distance" then emitEv s "maintain_distance" t.type
  else if tac = "hit_and_run" then emitEv s "hit_and_run" t.type
  else if tac = "dodge_breath" then emitEv s "dodge_breath" ""
  else if tac = "target_crystals" then emitEv s "target_crystals" ""
  else if tac = "use_consumables" then useConsumables w s
  else s

/-- executeStrategyActions: dispatch on the strategy approach, then run each
named tactic in order. -/
def executeStrategyActions (w : World) (s : CombatState) (strat : Strategy) (t : Snap) :
    CombatState :=
  let s1 :=
    if strat.approach = "AGGRESSIVE" then executeAggressiveStrategy w s t
    else if strat.approach = "DEFENSIVE" then executeDefensiveStrategy w s t
    else if strat.approach = "BALANCED" then executeBalancedStrategy w s t
    else if strat.approach = "RETREAT" then executeRetreat "STRATEGIC" w s
    else s
  strat.tactics.foldl (fun acc tac => executeTactic w acc tac t) s1

/-- processCombatActions: bail out without a target or out of combat; end with
TARGET_LOST when the target is gone or out of range; retreat on low health;
otherwise execute the current strategy.  The source reads this.currentStrategy
without a null check; initiateCombat always sets it before inCombat becomes
true, so the none branch is unreachable and modelled as a no-op. -/
def processCombatActions (w : World) (s : CombatState) : CombatState :=
  match s.currentTarget with
  | none => s
  | some t =>
    if s.inCombat = false then s
    else if isTargetValid w t = false then endCombat "TARGET_LOST" w s
    else if w.health ≤ fleeHealthThreshold then executeRetreat "LOW_HEALTH" w s
    else
      match s.currentStrategy with
      | some strat => executeStrategyActions w s strat t
      | none => s

/-- initiateCombat: pick the optimal target; if one exists, enter combat,
record the start time, obtain a strategy (strategyOf stands for
consultAIForCombatStrategy, which always yields a strategy from the AI, the
cache, or the default table), emit combat_start (whose synchronous listener
recordCombatStart pushes the history entry) and announce engagement. -/
def initiateCombat (strategyOf : Snap → Strategy) (w : World) (s : CombatState) : CombatState :=
  match selectOptimalTarget w with
  | none => s
  | some t =>
    let strat := strategyOf t
    let s1 := { s with inCombat := true, currentTarget := some t,
                       combatStartTime := w.now, currentStrategy := some strat }
    let s2 := { s1 with
      combatHistory := s1.combatHistory ++
        [{ startTime := w.now, target := t.type, botHealthStart := w.health,
           strategy := strat.approach, endTime := none, duration := none,
           outcome := none, botHealthEnd := none }],
      events := s1.events ++ [("combat_start", t.type)] }
    emitEv s2 "chat_engage" t.type

/-- processCombatStateMachine: the 100 time-unit combat tick.  Out of combat
with a nonzero threat level it initiates combat; in combat it processes
combat actions. -/
def processCombatStateMachine (strategyOf : Snap → Strategy) (w : World) (s : CombatState) :
    CombatState :=
  if s.inCombat = false ∧ s.threatLevel ≠ ThreatLevel.NONE then initiateCombat strategyOf w s
  else if s.inCombat then processCombatActions w s
  else s

/-- setRetreatCooldown: reason-keyed cooldown durations with a 20 second
default; stores the absolute end timestamp. -/
def cooldownFor (reason : String) : ℕ :=
  if reason = "LOW_HEALTH" then 30000
  else if reason = "CRITICAL_HEALTH" then 60000
  else if reason = "STRATEGIC" then 15000
  else if reason = "SMART_RETREAT" then 20000
  else 20000

/-- setRetreatCooldown: record when the retreat cooldown ends. -/
def setRetreatCooldown (reason : String) (now : ℕ) (s : CombatState) : CombatState :=
  { s with retreatCooldownEnd := some (now + cooldownFor reason) }

/-- canEngageInCombat: false while the retreat cooldown timestamp lies in the
future; otherwise requires health above the flee threshold, a nonzero threat
level, and not already being in combat. -/
def canEngageInCombat (w : World) (s : CombatState) : Bool :=
  match s.retreatCooldownEnd with
  | some e =>
    if w.now < e then false
    else decide (w.health > fleeHealthThreshold) && decide (s.threatLevel ≠ ThreatLevel.NONE)
           && !s.inCombat
  | none =>
    decide (w.health > fleeHealthThreshold) && decide (s.threatLevel ≠ ThreatLevel.NONE)
      && !s.inCombat

/-- The battle decision record returned by shouldEngageInBattle.  The
finalScore field makes the computed score observable; reasoning text and the
recommended-action label are presentation only and omitted. -/
structure BattleDecision where
  finalScore : ℚ
  engage : Bool
  confidence : ℚ
deriving DecidableEq, Repr

/-- shouldEngageInBattle, embedded over its three factor values and the state
modifier (the source derives riskFactors, successProbability and
strategicValue from inventory, history and environment collaborators before
combining them): weighted sum 0.4, 0.3, minus 0.3, plus the modifier; engage
exactly when the final score exceeds 0.5. -/
def shouldEngageInBattle (successProbability strategicValue riskFactors stateModifier : ℚ) :
    BattleDecision :=
  let engagementScore := successProbability * (4/10) + strategicValue * (3/10)
    - riskFactors * (3/10)
  let finalScore := engagementScore + stateModifier
  { finalScore := finalScore,
    engage := decide (finalScore > 1/2),
    confidence := |finalScore - 1/2| * 2 }

end Combat

namespace Mission

/-- The research record owned by the MissionManager. -/
structure Research where
  enderDragonKnowledge : String
  currentStrategy : String
  requiredItems : List String
  currentGoal : String
deriving DecidableEq, Repr

/-- The MissionManager state.  phaseTrace is ghost instrumentation: it records
every assignment to currentPhase so temporal claims can observe transient
phases; providerCalls is ghost instrumentation counting invocations of the
external generateContent provider. -/
structure MissionState where
  missionActive : Bool
  missionStarted : Bool
  currentPhase : String
  currentTask : Option String
  progressLog : List String
  research : Research
  phaseTrace : List String
  providerCalls : ℕ
deriving DecidableEq, Repr

/-- The constructor state: waiting phase, nothing started, empty research. -/
def initialMissionState : MissionState :=
  { missionActive := false, missionStarted := false, currentPhase := "waiting",
    currentTask := none, progressLog := [],
    research := { enderDragonKnowledge := "", currentStrategy := "",
                  requiredItems := [], currentGoal := "" },
    phaseTrace := [], providerCalls := 0 }

/-- Assign currentPhase, recording the assignment in the ghost trace. -/
def setPhase (s : MissionState) (p : String) : MissionState :=
  { s with currentPhase := p, phaseTrace := s.phaseTrace ++ [p] }

/-- logProgress: append a timestamped message to the progress log (the
timestamp is wall-clock presentation and not modelled). -/
def logProgress (s : MissionState) (msg : String) : MissionState :=
  { s with progressLog := s.progressLog ++ [msg] }

/-- The external strategy-text provider, bot.model.generateContent: absent
when bot.model is undefined, and each call may throw. -/
def Provider : Type := Option (String → Except Unit String)

/-- The fixed item list of the hardcoded fallback strategy. -/
def basicRequiredItems : List String :=
  ["Diamond sword", "Diamond pickaxe", "Diamond armor set",
   "Bow and arrows", "Ender pearls (12+)", "Blaze rods (7+)",
   "Food (steak/bread)", "Building blocks", "Crafting table"]

/-- The fixed goal of the hardcoded fallback strategy. -/
def basicGoal : String := "Mine diamonds and gather basic resources"

/-- The fixed summary of the hardcoded fallback strategy. -/
def basicStrategySummary : String :=
  "Gather diamonds, create equipment, explore Nether for blaze rods and ender pearls, find stronghold, defeat dragon"

/-- setBasicStrategy: install the hardcoded static strategy. -/
def setBasicStrategy (s : MissionState) : MissionState :=
  { s with research := { s.research with
      requiredItems := basicRequiredItems
      currentGoal := basicGoal
      currentStrategy := basicStrategySummary } }

/-- startPreparationPhase: set the phase, announce the goal, log progress and
delegate to the gameplay collaborator (external, skipped when absent). -/
def startPreparationPhase (s : MissionState) : MissionState :=
  let s1 := setPhase s "preparation"
  logProgress s1 ("Preparation phase started - Goal: " ++ s1.research.currentGoal)

/-- The comprehensive-strategy research prompt (content abridged; no settled
claim depends on the prompt text). -/
def researchPrompt : String :=
  "As an expert Minecraft player planning to defeat the Ender Dragon, provide a comprehensive strategy"

/-- The structured-extraction prompt built around the research text (content
abridged; no settled claim depends on the prompt text). -/
def strategyPromptFor (research : String) : String :=
  "Based on this Ender Dragon research, extract items, next goal and strategy. Research: " ++ research

/-- One iteration of the line-oriented parser of parseResearchForStrategy:
a line-prefix test installs items, goal or strategy summary. -/
def applyParsedLine (s : MissionState) (line : String) : MissionState :=
  if line.startsWith "ITEMS:" then
    { s with research := { s.research with
        requiredItems := ((line.replace "ITEMS:" "").splitOn ",").map (fun i => i.trim) } }
  else if line.startsWith "NEXT_GOAL:" then
    { s with research := { s.research with currentGoal := (line.replace "NEXT_GOAL:" "").trim } }
  else if line.startsWith "STRATEGY:" then
    { s with research := { s.research with currentStrategy := (line.replace "STRATEGY:" "").trim } }
  else s

/-- parseResearchForStrategy: without a model, fall back to the basic
strategy; otherwise call the provider once and either parse the reply line by
line or, when the call throws, fall back to the basic strategy. -/
def parseResearchForStrategy (provider : Provider) (research : String) (s : MissionState) :
    MissionState :=
  match provider with
  | none => setBasicStrategy s
  | some g =>
    let s1 := { s with providerCalls := s.providerCalls + 1 }
    match g (strategyPromptFor research) with
    | Except.error _ => setBasicStrategy s1
    | Except.ok parsed => (parsed.splitOn "\n").foldl applyParsedLine s1

/-- conductEnderDragonResearch: without a model, install the basic strategy
and start preparation; otherwise call the provider once, and on success store
the knowledge, run the extraction step, log and start preparation, while on
failure fall back to the basic strategy and still start preparation. -/
def conductEnderDragonResearch (provider : Provider) (s : MissionState) : MissionState :=
  match provider with
  | none => startPreparationPhase (setBasicStrategy s)
  | some g =>
    let s1 := { s with providerCalls := s.providerCalls + 1 }
    match g researchPrompt with
    | Except.error _ => startPreparationPhase (setBasicStrategy s1)
    | Except.ok text =>
      let s2 := { s1 with research := { s1.research with enderDragonKnowledge := text } }
      let s3 := parseResearchForStrategy provider text s2
      startPreparationPhase (logProgress s3 "Research phase completed")

/-- startEnderDragonMission: guarded by the missionStarted flag; when fresh,
mark the mission started and active, enter the research phase, log, and run
the research continuation. -/
def startEnderDragonMission (provider : Provider) (s : MissionState) : MissionState :=
  if s.missionStarted then s
  else
    let s1 := setPhase { s with missionStarted := true, missionActive := true } "research"
    let s2 := logProgress s1 "Mission initiated - Beginning research phase"
    conductEnderDragonResearch provider s2

/-- Length of Object.keys applied to the bot players collection.  In the bot
main files players is a JavaScript Map; Object.keys lists only an object's
own enumerable string-keyed properties, and a Map stores its entries
internally, not as properties, so Object.keys of a Map is the empty array
whatever entries it holds and its length is always 0.  The argument carries
the Map entries (the joined player names). -/
def objectKeysLengthOfPlayersMap (_players : List String) : ℕ := 0

/-- handlePlayerJoin of the loaded MissionManager: the guard tests
missionStarted, the truthiness of bot.players (a Map object, always truthy),
and that Object.keys of bot.players has length exactly 1; since bot.players
is a Map, that length is always 0 and the start branch is dead code.
Otherwise, when the mission is active, only chat messages are sent (no state
change). -/
def handlePlayerJoin (provider : Provider) (players : List String) (s : MissionState) :
    MissionState :=
  if s.missionStarted = false ∧ objectKeysLengthOfPlayersMap players = 1 then
    startEnderDragonMission provider s
  else s

end Mission

namespace EventMgr

/-- One record of the error ring buffer kept by recordError (stack trace and
raw args are diagnostics and not modelled). -/
structure ErrorRecord where
  event : String
  message : String
deriving DecidableEq, Repr

/-- The event statistics owned by the EventManager (performance metrics are
wall-clock diagnostics and not modelled). -/
structure EventStats where
  totalEvents : ℕ
  eventCounts : List (String × ℕ)
  recentEvents : List String
  errorEvents : List ErrorRecord
deriving DecidableEq, Repr

/-- The empty statistics set up in the constructor. -/
def initialEventStats : EventStats :=
  { totalEvents := 0, eventCounts := [], recentEvents := [], errorEvents := [] }

/-- The recent-events ring buffer capacity from the configuration. -/
def maxRecentEvents : ℕ := 100

/-- The error ring buffer capacity from the configuration. -/
def maxErrorEvents : ℕ := 50

/-- Increment the per-event counter (eventCounts object keyed by name). -/
def bumpCount : List (String × ℕ) → String → List (String × ℕ)
  | [], n => [(n, 1)]
  | (k, v) :: rest, n => if k = n then (k, v + 1) :: rest else (k, v) :: bumpCount rest n

/-- recordError: push the record and, when the buffer exceeds
maxErrorEvents, shift the oldest record out. -/
def recordError (stats : EventStats) (eventName msg : String) : EventStats :=
  let es := stats.errorEvents ++ [{ event := eventName, message := msg }]
  { stats with errorEvents := if es.length > maxErrorEvents then es.tail else es }

/-- processEvent: update the global and per-event counters and the capped
recent-events buffer, run each middleware (each middleware error is caught in
its own try block, logged, and has no further effect), then run the handler.
A handler exception is caught by the surrounding try block and recorded with
recordError; processEvent then returns normally.  The returned list holds the
secondary events processEvent emits: on the success path a
performance_warning when the handler was slow (elapsed models the measured
processing time), and nothing on the error path.  Event-file logging is
disabled by default and not modelled. -/
def processEvent (stats : EventStats) (eventName : String)
    (mws : List (Except String Unit)) (handler : Except String Unit)
    (elapsed : ℕ) : EventStats × List (String × String) :=
  let _ := mws
  let stats1 : EventStats :=
    { stats with
      totalEvents := stats.totalEvents + 1
      eventCounts := bumpCount stats.eventCounts eventName
      recentEvents :=
        let re := stats.recentEvents ++ [eventName]
        if re.length > maxRecentEvents then re.tail else re }
  match handler with
  | Except.ok _ =>
    (stats1, if elapsed > 1000 then [("performance_warning", eventName)] else [])
  | Except.error msg => (recordError stats1 eventName msg, [])

end EventMgr

section Fixtures

open Threat Combat Mission EventMgr

/-- A world with one hostile zombie five blocks away and a healthy bot. -/
def wEx : Combat.World :=
  { entities := [(7, { type := "minecraft:zombie", distFromBot := 5 })],
    health := 20, maxHealth := 20, now := 5000, attackDamage := 3 }

/-- A world whose entities map is empty (the tracked target was removed). -/
def wNoEntities : Combat.World :=
  { entities := [], health := 20, maxHealth := 20, now := 2000, attackDamage := 3 }

/-- The snapshot selectOptimalTarget produces for the zombie of wEx. -/
def snapEx : Combat.Snap :=
  { id := 7, type := "minecraft:zombie", distance := 5, threat := 30 }

/-- An idle combat state with a low threat level and a retreat cooldown that
ends at timestamp 30000, which is still in the future at wEx.now = 5000. -/
def sCooldownEx : Combat.CombatState :=
  { Combat.initialCombatState with
      threatLevel := Threat.ThreatLevel.LOW
      retreatCooldownEnd := some 30000 }

/-- An in-combat state whose current target is the zombie snapshot. -/
def sInCombatEx : Combat.CombatState :=
  { Combat.initialCombatState with
      inCombat := true
      currentTarget := some snapEx
      currentStrategy := some (Combat.getDefaultStrategy "minecraft:zombie")
      combatStartTime := 1000
      threatLevel := Threat.ThreatLevel.LOW
      combatHistory := [{ startTime := 1000, target := "minecraft:zombie",
                          botHealthStart := 20, strategy := "BALANCED",
                          endTime := none, duration := none,
                          outcome := none, botHealthEnd := none }] }

/-- Event statistics whose error ring buffer is exactly full. -/
def fullErrorStats : EventMgr.EventStats :=
  { EventMgr.initialEventStats with
      errorEvents := List.replicate EventMgr.maxErrorEvents { event := "e", message := "m" } }

/-- The combat statistics invariant of the specification. -/
def statsInvariant (st : Combat.CombatStats) : Prop :=
  st.totalFights = st.wins + st.losses + st.escapes

/-- A concrete strategy source standing for consultAIForCombatStrategy: it
answers with the static default-table strategy for the target type. -/
def defaultStrategyOf : Combat.Snap → Combat.Strategy :=
  fun t => Combat.getDefaultStrategy t.type

end Fixtures

open Threat Combat Mission EventMgr

/-- Claim C5: for a minecraft:zombie at distance 5 with bot health 20 of 20
and maxCombatRange 20, calculateEntityThreat returns
round(30 times (1 minus 5/20) times 1) = 23, and determineThreatLevel of
that maximum score is LOW. -/
theorem zombie_threat_scenario :
    calculateEntityThreat 20 20 { type := "minecraft:zombie", distance := some 5 } = 23 ∧
    determineThreatLevel 23 = ThreatLevel.LOW := by
  constructor
  · simp only [calculateEntityThreat, baseThreat]
    simp
    norm_num [jsRound, maxCombatRange]
  · norm_num [determineThreatLevel]

/-- Claim C6: determineThreatLevel is total on rational scores, every score
maps to exactly one of the five levels, thresholds are inclusive at the lower
bound and the highest satisfied threshold wins; in particular a score of 80
gives CRITICAL and a score of 79.999 gives HIGH. -/
theorem threat_level_ladder :
    (∀ q : ℚ,
      ((determineThreatLevel q = ThreatLevel.CRITICAL) ↔ 80 ≤ q) ∧
      ((determineThreatLevel q = ThreatLevel.HIGH) ↔ 60 ≤ q ∧ q < 80) ∧
      ((determineThreatLevel q = ThreatLevel.MEDIUM) ↔ 40 ≤ q ∧ q < 60) ∧
      ((determineThreatLevel q = ThreatLevel.LOW) ↔ 20 ≤ q ∧ q < 40) ∧
      ((determineThreatLevel q = ThreatLevel.NONE) ↔ q < 20)) ∧
    determineThreatLevel 80 = ThreatLevel.CRITICAL ∧
    determineThreatLevel (79999/1000) = ThreatLevel.HIGH := by
  refine ⟨fun q => ?_, by norm_num [determineThreatLevel], by norm_num [determineThreatLevel]⟩
  unfold determineThreatLevel
  split_ifs with h1 h2 h3 h4 <;>
    refine ⟨?_, ?_, ?_, ?_, ?_⟩ <;> simp <;>
    first
      | linarith
      | (constructor <;> linarith)
      | (intro _; linarith)

/-- Claim C7: shouldEngageInBattle computes the final score as
0.4 times successProbability plus 0.3 times strategicValue minus 0.3 times
riskFactors plus the state modifier, engages exactly when the score exceeds
0.5, and at risk 0.9, success 0.1, value 0.1, modifier 0 the score is
minus 0.20 with engage false. -/
theorem engage_scoring :
    (∀ s v r m : ℚ,
       (shouldEngageInBattle s v r m).finalScore
         = s * (4/10) + v * (3/10) - r * (3/10) + m ∧
       ((shouldEngageInBattle s v r m).engage = true ↔
         s * (4/10) + v * (3/10) - r * (3/10) + m > 1/2)) ∧
    (shouldEngageInBattle (1/10) (1/10) (9/10) 0).finalScore = -(1/5) ∧
    (shouldEngageInBattle (1/10) (1/10) (9/10) 0).engage = false := by
  refine ⟨fun s v r m => ⟨rfl, ?_⟩, by norm_num [shouldEngageInBattle], ?_⟩
  · simp [shouldEngageInBattle]
  · simp only [shouldEngageInBattle, decide_eq_false_iff_not]
    norm_num

/-- Claim C9: the invariant totalFights = wins + losses + escapes holds for
the all-zero initial statistics and is preserved by every endCombat call,
whatever the outcome string. -/
theorem combat_stats_invariant_preserved :
    statsInvariant initialCombatStats ∧
    ∀ (outcome : String) (w : World) (s : CombatState),
      statsInvariant s.combatStats → statsInvariant (endCombat outcome w s).combatStats := by
  constructor
  · unfold statsInvariant initialCombatStats
    simp
  · intro outcome w s h
    unfold statsInvariant at *
    unfold endCombat
    by_cases hc : s.inCombat = false
    · simp [hc, h]
    · simp [hc]
      split_ifs <;> simp <;> omega

/-- Claim C9 witness: the invariant after a concrete RETREAT endCombat. -/
theorem combat_stats_invariant_preserved_witness :
    statsInvariant (endCombat "RETREAT" wEx sInCombatEx).combatStats :=
  combat_stats_invariant_preserved.2 "RETREAT" wEx sInCombatEx (by unfold statsInvariant; decide)

/-- Claim C10: calling endCombat while inCombat is false leaves the whole
combat state unchanged, for every outcome string; in particular combatStats,
combatHistory, currentTarget and currentStrategy are untouched. -/
theorem endCombat_not_inCombat_noop :
    ∀ (outcome : String) (w : World) (s : CombatState),
      s.inCombat = false → endCombat outcome w s = s := by
  intro outcome w s h
  unfold endCombat
  simp [h]

/-- Claim C10 witness: a concrete endCombat call outside combat is the
identity. -/
theorem endCombat_not_inCombat_noop_witness :
    endCombat "TARGET_LOST" wEx initialCombatState = initialCombatState :=
  endCombat_not_inCombat_noop "TARGET_LOST" wEx initialCombatState rfl

/-- Helper: the raw zombie map entry scores a threat of 30 when the bot is at
full health (no distance field on the raw entry, so no distance factor). -/
lemma zombieRawThreat :
    calculateEntityThreat 20 20 { type := "minecraft:zombie", distance := none } = 30 := by
  simp only [calculateEntityThreat, baseThreat]
  simp
  norm_num [jsRound]

/-- Helper: in the concrete world wEx, target selection picks the zombie. -/
lemma selectOptimalTarget_wEx : selectOptimalTarget wEx = some snapEx := by
  unfold selectOptimalTarget getNearbyHostileEntities wEx
  simp [isHostileEntity, maxCombatRange, sortByThreatDesc, insertByThreat, priorityTargets,
    snapEx, zombieRawThreat, List.findSome?]

/-- Helper: idle with a nonzero threat level and an available target, the
combat tick always enters combat, with no reference to the retreat
cooldown. -/
lemma engages_on_threat : ∀ (so : Snap → Strategy) (w : World) (s : CombatState) (t : Snap),
    s.inCombat = false → s.threatLevel ≠ ThreatLevel.NONE → selectOptimalTarget w = some t →
    (processCombatStateMachine so w s).inCombat = true := by
  intro so w s t h1 h2 h3
  unfold processCombatStateMachine
  rw [if_pos ⟨h1, h2⟩]
  unfold initiateCombat
  rw [h3]
  simp [emitEv]

/-- Claim C1 counterexample: a concrete idle state under an active retreat
cooldown (cooldown end 30000, clock 5000) with threat level LOW and a zombie
in range; one tick of processCombatStateMachine still sets inCombat to true,
refuting that initiateCombat is suppressed and inCombat remains false during
the cooldown window. -/
theorem cooldown_engagement_counterexample :
    sCooldownEx.retreatCooldownEnd = some 30000 ∧ wEx.now < 30000 ∧
    sCooldownEx.inCombat = false ∧ sCooldownEx.threatLevel ≠ ThreatLevel.NONE ∧
    (processCombatStateMachine defaultStrategyOf wEx sCooldownEx).inCombat = true := by
  refine ⟨rfl, by decide, rfl, by decide, ?_⟩
  exact engages_on_threat defaultStrategyOf wEx sCooldownEx snapEx rfl (by decide)
    selectOptimalTarget_wEx

/-- Claim C1, amended: while a retreat cooldown timestamp lies in the future,
canEngageInCombat returns false (setRetreatCooldown always installs such a
future timestamp, for every reason string); the suppression is advisory only,
because processCombatStateMachine never consults the cooldown and still
transitions from idle to combat whenever the threat level is not NONE and a
target is available. -/
theorem retreat_cooldown_advisory_only :
    (∀ (w : World) (s : CombatState) (e : ℕ), s.retreatCooldownEnd = some e → w.now < e →
      canEngageInCombat w s = false) ∧
    (∀ (reason : String) (now : ℕ) (s : CombatState),
      (setRetreatCooldown reason now s).retreatCooldownEnd = some (now + cooldownFor reason) ∧
      now < now + cooldownFor reason) ∧
    (∀ (so : Snap → Strategy) (w : World) (s : CombatState) (t : Snap),
      s.inCombat = false → s.threatLevel ≠ ThreatLevel.NONE →
      selectOptimalTarget w = some t →
      (processCombatStateMachine so w s).inCombat = true) := by
  refine ⟨?_, ?_, engages_on_threat⟩
  · intro w s e he hlt
    unfold canEngageInCombat
    rw [he]
    simp [hlt]
  · intro reason now s
    refine ⟨rfl, ?_⟩
    have hpos : 0 < cooldownFor reason := by
      unfold cooldownFor
      split_ifs <;> norm_num
    omega

/-- Claim C1 witness: the amended theorem applied at the concrete cooldown
state. -/
theorem retreat_cooldown_advisory_only_witness :
    canEngageInCombat wEx sCooldownEx = false ∧
    (setRetreatCooldown "LOW_HEALTH" 5000 initialCombatState).retreatCooldownEnd
      = some (5000 + cooldownFor "LOW_HEALTH") ∧
    (processCombatStateMachine defaultStrategyOf wEx sCooldownEx).inCombat = true :=
  ⟨retreat_cooldown_advisory_only.1 wEx sCooldownEx 30000 rfl (by decide),
   (retreat_cooldown_advisory_only.2.1 "LOW_HEALTH" 5000 initialCombatState).1,
   retreat_cooldown_advisory_only.2.2 defaultStrategyOf wEx sCooldownEx snapEx rfl (by decide)
     selectOptimalTarget_wEx⟩

/-- Claim C2: when the current combat target is no longer in the entities map
while in combat, the next combat-actions tick fails the target validity check
and ends the session with outcome TARGET_LOST, which falls into the default
branch of endCombat: losses increments by one, killStreak resets to 0, wins
is unchanged, totalFights increments, the target is cleared, and the
combat_end event carries TARGET_LOST. -/
theorem target_lost_on_entity_removed :
    ∀ (w : World) (s : CombatState) (t : Snap),
      s.inCombat = true → s.currentTarget = some t →
      lookupEntity w.entities t.id = none →
      (processCombatActions w s).inCombat = false ∧
      (processCombatActions w s).combatStats.losses = s.combatStats.losses + 1 ∧
      (processCombatActions w s).combatStats.killStreak = 0 ∧
      (processCombatActions w s).combatStats.totalFights = s.combatStats.totalFights + 1 ∧
      (processCombatActions w s).combatStats.wins = s.combatStats.wins ∧
      (processCombatActions w s).events = s.events ++ [("combat_end", "TARGET_LOST")] ∧
      (processCombatActions w s).currentTarget = none := by
  intro w s t hin htgt hlook
  have hv : isTargetValid w t = false := by simp [isTargetValid, hlook]
  have hp : processCombatActions w s = endCombat "TARGET_LOST" w s := by
    unfold processCombatActions
    rw [htgt]
    simp [hin, hv]
  rw [hp]
  refine ⟨?_, ?_, ?_, ?_, ?_, ?_, ?_⟩ <;> simp [endCombat, hin]

/-- Claim C2 witness: the theorem applied at a concrete in-combat state whose
target id 7 is absent from the entities map. -/
theorem target_lost_on_entity_removed_witness :
    (processCombatActions wNoEntities sInCombatEx).inCombat = false ∧
    (processCombatActions wNoEntities sInCombatEx).combatStats.losses
      = sInCombatEx.combatStats.losses + 1 ∧
    (processCombatActions wNoEntities sInCombatEx).combatStats.killStreak = 0 ∧
    (processCombatActions wNoEntities sInCombatEx).combatStats.totalFights
      = sInCombatEx.combatStats.totalFights + 1 ∧
    (processCombatActions wNoEntities sInCombatEx).combatStats.wins
      = sInCombatEx.combatStats.wins ∧
    (processCombatActions wNoEntities sInCombatEx).events
      = sInCombatEx.events ++ [("combat_end", "TARGET_LOST")] ∧
    (processCombatActions wNoEntities sInCombatEx).currentTarget = none :=
  target_lost_on_entity_removed wNoEntities sInCombatEx snapEx rfl rfl rfl

/-- Claim C3 counterexample: a handler that throws on a dispatched
chat_received event is caught and the error is recorded, but the list of
secondary events processEvent emits is empty, so the exception is not
surfaced as a secondary error event as the claim states. -/
theorem handler_error_no_error_event_counterexample :
    (processEvent initialEventStats "chat_received" [] (Except.error "boom") 5).2 = [] ∧
    (processEvent initialEventStats "chat_received" [] (Except.error "boom") 5).1.errorEvents
      = [{ event := "chat_received", message := "boom" }] :=
  ⟨rfl, rfl⟩

/-- Helper: the tail of an append with a singleton, for a nonempty prefix. -/
lemma tail_append_singleton {α : Type} (l : List α) (a : α) (h : l ≠ []) :
    (l ++ [a]).tail = l.tail ++ [a] := by
  cases l <;> simp_all

/-- Claim C3, amended: a handler exception is caught inside processEvent and
recorded into the error ring buffer, whose size stays capped at
maxErrorEvents with the oldest record evicted first and whose newest record
is the caught error; processEvent returns normally, and no secondary event at
all (in particular no error event) is emitted on the error path. -/
theorem handler_error_contained :
    ∀ (stats : EventStats) (eventName msg : String)
      (mws : List (Except String Unit)) (elapsed : ℕ),
      (stats.errorEvents.length ≤ maxErrorEvents →
        (processEvent stats eventName mws (Except.error msg) elapsed).1.errorEvents.length
          ≤ maxErrorEvents) ∧
      (processEvent stats eventName mws (Except.error msg) elapsed).1.errorEvents.getLast?
        = some { event := eventName, message := msg } ∧
      (stats.errorEvents.length = maxErrorEvents →
        (processEvent stats eventName mws (Except.error msg) elapsed).1.errorEvents
          = stats.errorEvents.tail ++ [{ event := eventName, message := msg }]) ∧
      (processEvent stats eventName mws (Except.error msg) elapsed).2 = [] := by
  intro stats eventName msg mws elapsed
  have hpe : (processEvent stats eventName mws (Except.error msg) elapsed).1.errorEvents
      = (if (stats.errorEvents ++ [({ event := eventName, message := msg } : ErrorRecord)]).length
            > maxErrorEvents
         then (stats.errorEvents ++ [({ event := eventName, message := msg } : ErrorRecord)]).tail
         else stats.errorEvents ++ [({ event := eventName, message := msg } : ErrorRecord)]) := rfl
  refine ⟨?_, ?_, ?_, rfl⟩
  · intro hle
    rw [hpe]
    by_cases hgt : (stats.errorEvents
        ++ [({ event := eventName, message := msg } : ErrorRecord)]).length > maxErrorEvents
    · rw [if_pos hgt]
      simp only [List.length_tail, List.length_append, List.length_singleton]
      omega
    · rw [if_neg hgt]
      simp only [List.length_append, List.length_singleton] at *
      omega
  · rw [hpe]
    by_cases hgt : (stats.errorEvents
        ++ [({ event := eventName, message := msg } : ErrorRecord)]).length > maxErrorEvents
    · rw [if_pos hgt]
      have hne : stats.errorEvents ≠ [] := by
        intro hnil
        rw [hnil] at hgt
        simp [maxErrorEvents] at hgt
      rw [tail_append_singleton _ _ hne]
      exact List.getLast?_concat _
    · rw [if_neg hgt]
      exact List.getLast?_concat _
  · intro h50
    rw [hpe]
    have hgt : (stats.errorEvents
        ++ [({ event := eventName, message := msg } : ErrorRecord)]).length > maxErrorEvents := by
      simp [h50]
    have hne : stats.errorEvents ≠ [] := by
      intro hnil
      rw [hnil] at h50
      simp [maxErrorEvents] at h50
    rw [if_pos hgt]
    exact tail_append_singleton _ _ hne

/-- Claim C3 witness: the amended theorem applied at statistics whose error
buffer is exactly full, showing oldest-first eviction and no secondary
event. -/
theorem handler_error_contained_witness :
    (processEvent fullErrorStats "combat_started" [] (Except.error "boom") 0).1.errorEvents
      = fullErrorStats.errorEvents.tail ++ [{ event := "combat_started", message := "boom" }] ∧
    (processEvent fullErrorStats "combat_started" [] (Except.error "boom") 0).2 = [] :=
  ⟨(handler_error_contained fullErrorStats "combat_started" "boom" [] 0).2.2.1 rfl,
   (handler_error_contained fullErrorStats "combat_started" "boom" [] 0).2.2.2⟩

/-- Claim C4: the loaded MissionManager evaluates Object.keys on the players
Map, which is always the empty array, so the join guard can never be
satisfied: handlePlayerJoin is the identity on the mission state for every
provider and every players content, and at the concrete failing input (fresh
state in the waiting phase, first player joined) the phase stays waiting and
the mission never starts, contradicting the claimed waiting-to-research
transition on the first join. -/
theorem mission_join_guard_never_fires :
    (∀ (provider : Provider) (players : List String) (s : MissionState),
      handlePlayerJoin provider players s = s) ∧
    (handlePlayerJoin none ["Steve"] initialMissionState).currentPhase = "waiting" ∧
    (handlePlayerJoin none ["Steve"] initialMissionState).missionStarted = false := by
  have hall : ∀ (provider : Provider) (players : List String) (s : MissionState),
      handlePlayerJoin provider players s = s := by
    intro p players s
    unfold handlePlayerJoin objectKeysLengthOfPlayersMap
    simp
  refine ⟨hall, ?_, ?_⟩ <;> rw [hall] <;> rfl

/-- Claim C8: when every call of the strategy-text provider throws,
conductEnderDragonResearch still installs the hardcoded static strategy
(the fixed item list, fixed goal and fixed summary) and reaches the
preparation phase, with exactly one provider call made (no retry loop). -/
theorem research_provider_failure_fallback :
    ∀ (g : String → Except Unit String), (∀ p, g p = Except.error ()) →
    ∀ s : MissionState,
      (conductEnderDragonResearch (some g) s).currentPhase = "preparation" ∧
      (conductEnderDragonResearch (some g) s).research.requiredItems = basicRequiredItems ∧
      (conductEnderDragonResearch (some g) s).research.currentGoal = basicGoal ∧
      (conductEnderDragonResearch (some g) s).research.currentStrategy = basicStrategySummary ∧
      (conductEnderDragonResearch (some g) s).providerCalls = s.providerCalls + 1 := by
  intro g hg s
  have hG : g researchPrompt = Except.error () := hg researchPrompt
  simp [conductEnderDragonResearch, hG, startPreparationPhase, setBasicStrategy, setPhase,
    logProgress]

/-- Claim C8 witness: the theorem applied at the initial mission state with a
provider that always throws. -/
theorem research_provider_failure_fallback_witness :
    (conductEnderDragonResearch (some (fun _ => Except.error ())) initialMissionState).currentPhase
      = "preparation" ∧
    (conductEnderDragonResearch (some (fun _ => Except.error ()))
        initialMissionState).research.requiredItems = basicRequiredItems ∧
    (conductEnderDragonResearch (some (fun _ => Except.error ()))
        initialMissionState).research.currentGoal = basicGoal ∧
    (conductEnderDragonResearch (some (fun _ => Except.error ()))
        initialMissionState).research.currentStrategy = basicStrategySummary ∧
    (conductEnderDragonResearch (some (fun _ => Except.error ()))
        initialMissionState).providerCalls = initialMissionState.providerCalls + 1 :=
  research_provider_failure_fallback (fun _ => Except.error ()) (fun _ => rfl)
    initialMissionState
